import Mathlib

/-!
Verification development for the `mumasp` muon-telescope control package.

The embedding models `mumasp/telescope.py` and `mumasp/measurement.py`.
External I/O (the Arduino behind `Telescope.send_cmd` and the filesystem
used by `scan`) is modelled by explicit oracles / state values:

* `Env` gives the device's response to the i-th command sent over the
  lifetime of a `Telescope` value (each `send_cmd` opens a fresh
  connection, so the response depends only on the call, which we index
  by the number of commands sent so far);
* `Telescope` carries `_calibrated`, `_current_pos` and, as a ghost
  field, the list of commands sent so far (`sentCmds`), which both
  indexes the oracle and witnesses "no device interaction" claims;
* real-valued angles and times are modelled as rationals (`ℚ`); the
  Python float semantics and the rational semantics agree on all the
  concrete values appearing in the claims;
* Python exceptions are modelled by the `PyErr` enumeration; an
  operation that can raise returns its updated state together with an
  `Option PyErr` / `Except PyErr` result;
* wall-clock time inside `measure` is modelled by a ghost clock that
  advances by `read_interval_s` at each `time.sleep` call (all other
  operations are treated as instantaneous), and the unbounded `while`
  loop takes an explicit fuel argument, returning `none` when the fuel
  is exhausted (termination = returning `some`).
-/

/-- Python exceptions raised by the modelled code.  `preconditionError`
stands for the bare `Exception` raised by `move_to` on an uncalibrated
telescope (the spec's taxonomy calls it PreconditionError);
`valueError` covers `ValueError` (including the `CalibrationError` of
the spec, which the source raises as `ValueError`); `typeError` is
CPython's `TypeError`; `fileExistsError` is raised by `os.mkdir`. -/
inductive PyErr where
  | valueError
  | typeError
  | preconditionError
  | fileExistsError
deriving DecidableEq, Repr

/-- The device oracle: `resp i` is the trimmed response text that
`send_cmd` returns for the i-th command sent (an empty string models a
timed-out call, which `send_cmd` converts into `""` after logging). -/
structure Env where
  resp : ℕ → String

/-- The state held by a `Telescope` instance: `_calibrated`,
`_current_pos` (the Python sentinel `(None, None)` is modelled as
`none`), and the ghost log of all commands sent through `send_cmd`. -/
structure Telescope where
  calibrated : Bool
  current_pos : Option (ℚ × ℚ)
  sentCmds : List String
deriving DecidableEq, Repr

/-- `Telescope.__init__`: uncalibrated, position sentinel, nothing sent. -/
def telInit : Telescope := ⟨false, none, []⟩

/-- `Telescope.send_cmd`: sends one command and returns the device's
(trimmed) response.  A timeout is logged and surfaces as `""`; the call
itself never raises. -/
def send_cmd (env : Env) (s : Telescope) (cmd : String) : String × Telescope :=
  (env.resp s.sentCmds.length, ⟨s.calibrated, s.current_pos, s.sentCmds ++ [cmd]⟩)

/-- ASCII whitespace as recognised by Python's `str.strip` (the wider
Unicode whitespace classes never occur in the modelled responses). -/
def pySpace (c : Char) : Bool :=
  c = ' ' || c = '\t' || c = '\n' || c = '\r' || c.toNat = 11 || c.toNat = 12

/-- `str.strip()` on a character list. -/
def stripChars (l : List Char) : List Char :=
  ((l.dropWhile pySpace).reverse.dropWhile pySpace).reverse

/-- Digits of a decimal literal, `none` if empty or a non-digit occurs. -/
def digitsToNat (l : List Char) : Option ℕ :=
  if l = [] then none
  else if l.all (fun c => c.isDigit) then
    some (l.foldl (fun a c => a * 10 + (c.toNat - 48)) 0)
  else none

/-- Python's `int(str)` on a character list: strips surrounding
whitespace, then an optional sign followed by a non-empty digit string.
(Underscore separators are not modelled; no modelled response contains
them.) -/
def parseIntChars (l : List Char) : Option ℤ :=
  match stripChars l with
  | [] => none
  | '-' :: rest => (digitsToNat rest).map (fun n => -(n : ℤ))
  | '+' :: rest => (digitsToNat rest).map (fun n => (n : ℤ))
  | l' => (digitsToNat l').map (fun n => (n : ℤ))

/-- Python's `int(str)` on a string. -/
def parseIntPy (s : String) : Option ℤ := parseIntChars s.toList

/-- Split a character list at newline characters (the line splitting of
`str.splitlines` for the `"\n"`-separated device responses; the
difference on a trailing newline - an extra empty piece - is erased by
the blank-line filter that always follows). -/
def splitOnNl : List Char → List (List Char)
  | [] => [[]]
  | c :: rest =>
    match splitOnNl rest with
    | [] => [[]]
    | cur :: others => if c = '\n' then [] :: cur :: others else (c :: cur) :: others

/-- The body of `Telescope.read_buffer` applied to a raw response:
split into lines, discard the first line (the trigger count), strip
each remaining line, drop blank lines, and parse every survivor as an
integer; `none` models the `ValueError` from a non-integer line. -/
def parseBuffer (r : String) : Option (List ℤ) :=
  let reply_lines := (splitOnNl r.toList).drop 1
  let sanitized_lines := (reply_lines.map stripChars).filter (fun ln => ln ≠ [])
  sanitized_lines.mapM parseIntChars

/-- `Telescope.clear_buffer`: sends `x`, response only logged. -/
def clear_buffer (env : Env) (s : Telescope) : Telescope :=
  (send_cmd env s "x").2

/-- `Telescope.read_ntrig`: `int(self.send_cmd("n"))`; a response that
does not parse as an integer (in particular the empty string produced
by a timeout) raises `ValueError`. -/
def read_ntrig (env : Env) (s : Telescope) : Telescope × Except PyErr ℤ :=
  let (r, s') := send_cmd env s "n"
  match parseIntPy r with
  | some n => (s', .ok n)
  | none => (s', .error .valueError)

/-- `Telescope.read_buffer`: sends `h` and parses the reply. -/
def read_buffer (env : Env) (s : Telescope) : Telescope × Except PyErr (List ℤ) :=
  let (r, s') := send_cmd env s "h"
  match parseBuffer r with
  | some l => (s', .ok l)
  | none => (s', .error .valueError)

/-- `Telescope.calibrate`: early return if already calibrated;
otherwise calibrate axis 0 then axis 1 (`c0`, `c1`), raising
`ValueError` on the `"-3"` (end switch not found) response.  Any other
non-`"0"` response is logged and a `ValueError(msg)` is constructed but
not raised in the source (the `raise` keyword is missing), so execution
falls through exactly as on success.  On falling through both axes the
state becomes calibrated with position `(90.0, 0.0)`. -/
def calibrate (env : Env) (s : Telescope) : Telescope × Option PyErr :=
  if s.calibrated then (s, none)
  else
    let (r0, s0) := send_cmd env s "c0"
    if r0 = "-3" then (s0, some .valueError)
    else
      let (r1, s1) := send_cmd env s0 "c1"
      if r1 = "-3" then (s1, some .valueError)
      else (⟨true, some (90, 0), s1.sentCmds⟩, none)

/-- Python's `%` on reals with a positive divisor:
`x - y * floor (x / y)`. -/
def pymod (x y : ℚ) : ℚ := x - y * (⌊x / y⌋ : ℚ)

/-- Python 3 `round` (banker's rounding, half to even), as used in
`int(round(...))` for step counts. -/
def pyroundQ (x : ℚ) : ℤ :=
  let f := ⌊x⌋
  let r := x - (f : ℚ)
  if r < 1 / 2 then f
  else if 1 / 2 < r then f + 1
  else if f % 2 = 0 then f else f + 1

/-- The `1e-10` tolerance used by `move_to` for "already at position". -/
def tol : ℚ := 1 / 10 ^ 10

/-- `steps_per_rev` for both axes (`_stepping_motor_conf`). -/
def steps_per_rev : ℚ := 12800

/-- `Telescope.move_to`: requires calibration (else raises, modelled by
`preconditionError`, a bare `Exception` in the source), requires
`theta >= 0 and phi >= 0` (else `ValueError`), then for each axis skips
the move when the normalized target is within `1e-10` of the current
coordinate and otherwise sends the move command; the device's response
is only logged.  The tracked position is unconditionally set to
`(theta % 180, phi % 360)`.  A `none` current position with the
calibrated flag set would make the float arithmetic raise `TypeError`
in Python; that unreachable case is modelled explicitly. -/
def move_to (env : Env) (s : Telescope) (theta phi : ℚ) : Telescope × Option PyErr :=
  if ¬ s.calibrated then (s, some .preconditionError)
  else if ¬ (0 ≤ theta ∧ 0 ≤ phi) then (s, some .valueError)
  else
    match s.current_pos with
    | none => (s, some .typeError)
    | some (ct, cp) =>
      let s1 :=
        if |pymod phi 360 - cp| < tol then s
        else (send_cmd env s
          ("m0," ++ toString (pyroundQ (steps_per_rev / 360 * pymod phi 360)))).2
      let s2 :=
        if |pymod theta 180 - ct| < tol then s1
        else (send_cmd env s1
          ("m1," ++ toString (pyroundQ (steps_per_rev / 360 * pymod theta 180)))).2
      (⟨s2.calibrated, some (pymod theta 180, pymod phi 360), s2.sentCmds⟩, none)

/-- `Telescope.reset_position`: `move_to(60, 40)` then drop the
calibrated flag; an exception from `move_to` propagates before the
flag is cleared. -/
def reset_position (env : Env) (s : Telescope) : Telescope × Option PyErr :=
  match move_to env s 60 40 with
  | (s', some e) => (s', some e)
  | (s', none) => (⟨false, s'.current_pos, s'.sentCmds⟩, none)

/-- The `is_calibrated` property. -/
def is_calibrated (s : Telescope) : Bool := s.calibrated

/-- The `position` property: returns `_current_pos` as is (the fresh
instance's `(None, None)` sentinel is the `none` value). -/
def position (s : Telescope) : Option (ℚ × ℚ) := s.current_pos

/-- The `arduino_date` setter: validates that `val` is a list of six
integers (the element type is enforced by the embedding's typing), then
executes `self.send_cmd("s" + ",".join(val))`.  `str.join` requires
string elements, and every element of `val` is an `int` (that is what
the guard just checked), so CPython raises `TypeError` before any
command is sent. -/
def arduino_date_set (_env : Env) (s : Telescope) (val : List ℤ) : Telescope × Option PyErr :=
  if val.length ≠ 6 then (s, some .valueError)
  else (s, some .typeError)

/-- The `while` loop of `measure`.  Arguments after the fuel: the ghost
clock (`time.time() - t_start`, advanced only by the `time.sleep`
call), `n_triggers`, `triggers`, and the telescope.  On normal exit it
returns the clock, `n_triggers` and `triggers` at exit; `none` means
the fuel ran out before the loop exited (a modelling artifact: the
source loop has no iteration bound of its own). -/
def measureLoop (env : Env) (max_t_s read_interval_s : ℚ) (max_trig read_threshold : ℤ) :
    ℕ → ℚ → ℕ → List ℤ → Telescope → Option (Telescope × Except PyErr (ℚ × ℕ × List ℤ))
  | 0, _, _, _, _ => none
  | fuel + 1, clock, n_triggers, triggers, tel =>
    if clock < max_t_s then
      let clock1 := clock + read_interval_s
      match read_ntrig env tel with
      | (tel1, .error e) => some (tel1, .error e)
      | (tel1, .ok n_in_buffer) =>
        if read_threshold ≤ n_in_buffer then
          match read_buffer env tel1 with
          | (tel2, .error e) => some (tel2, .error e)
          | (tel2, .ok new_triggers) =>
            let n_triggers2 := n_triggers + new_triggers.length
            let triggers2 := triggers ++ new_triggers
            if max_trig ≤ (n_triggers2 : ℤ) then
              some (tel2, .ok (clock1, n_triggers2, triggers2))
            else
              measureLoop env max_t_s read_interval_s max_trig read_threshold
                fuel clock1 n_triggers2 triggers2 tel2
        else
          if max_trig ≤ (n_triggers : ℤ) + n_in_buffer then
            some (tel1, .ok (clock1, n_triggers, triggers))
          else
            measureLoop env max_t_s read_interval_s max_trig read_threshold
              fuel clock1 n_triggers triggers tel1
    else some (tel, .ok (clock, n_triggers, triggers))

/-- `measure`: clear the buffer, run the acquisition loop, then perform
one final unconditional drain.  The redundant `t_start` return value
(an absolute wall-clock stamp, outside the model) is dropped; the
returned rational is `time_elapsed`.  The result is `none` only when
the loop fuel ran out. -/
def measure' (env : Env) (tel : Telescope) (max_t_s read_interval_s : ℚ)
    (max_trig read_threshold : ℤ) (fuel : ℕ) :
    Option (Telescope × Except PyErr (ℚ × List ℤ)) :=
  let tel0 := clear_buffer env tel
  match measureLoop env max_t_s read_interval_s max_trig read_threshold fuel 0 0 [] tel0 with
  | none => none
  | some (tel1, .error e) => some (tel1, .error e)
  | some (tel1, .ok (clock, _, triggers)) =>
    match read_buffer env tel1 with
    | (tel2, .error e) => some (tel2, .error e)
    | (tel2, .ok rest) => some (tel2, .ok (clock, triggers ++ rest))

/-- The record persisted for one scanned position.  The `t_start_s`
stamp (absolute wall-clock time) and the constant `version` string of
the JSON envelope are outside the model (the spec scopes envelope
formatting out); the remaining fields determine the file's content. -/
structure ScanRecord where
  theta_deg : ℚ
  phi_deg : ℚ
  n_triggers : ℕ
  t_elapsed_s : ℚ
deriving DecidableEq, Repr

/-- The filesystem as seen by `scan`: the set of directories and a map
from file path to content. -/
structure FS where
  dirs : List String
  files : List (String × ScanRecord)
deriving DecidableEq, Repr

/-- `Path.exists` for a result file. -/
def FS.hasFile (fs : FS) (p : String) : Bool :=
  fs.files.any (fun e => e.1 = p)

/-- `open(path, "w")` followed by writing one record (truncates any
previous content). -/
def FS.writeFile (fs : FS) (p : String) (r : ScanRecord) : FS :=
  ⟨fs.dirs, (fs.files.filter (fun e => e.1 ≠ p)) ++ [(p, r)]⟩

/-- Two-decimal digits of `0 ≤ k < 100`. -/
def twoDigits (k : ℤ) : String :=
  if k < 10 then "0" ++ toString k else toString k

/-- Python's `f"{x:.2f}"` (round half to even at two decimals; the sign
of a negative value rounding to zero is not preserved - no claim
exercises that corner). -/
def fmt2 (q : ℚ) : String :=
  let n := pyroundQ (q * 100)
  if n < 0 then "-" ++ toString (-n / 100) ++ "." ++ twoDigits (-n % 100)
  else toString (n / 100) ++ "." ++ twoDigits (n % 100)

/-- The per-position result-file name `meas_t{theta:.2f}_p{phi:.2f}.txt`. -/
def measFileName (theta phi : ℚ) : String :=
  "meas_t" ++ fmt2 theta ++ "_p" ++ fmt2 phi ++ ".txt"

/-- The position loop of `scan`.  For each position: build the result
path; skip when `skip_existing` and the file exists; otherwise move,
measure, and persist.  `f.writelines([info_str] + triggers)` writes the
info line and then hands the first `int` timestamp to `writelines`,
which requires strings, so CPython raises `TypeError` right after the
info line is on disk whenever `triggers` is non-empty; only the
empty-`triggers` case completes the position.  Exceptions propagate
(the `finally` block only detaches the scan-scoped log handler, which
is outside the model). -/
def scanLoop (env : Env) (max_t_s read_interval_s : ℚ) (max_trig read_threshold : ℤ)
    (fuel : ℕ) (save_dir : String) (skip_existing : Bool) :
    List (ℚ × ℚ) → FS → Telescope → Option (FS × Telescope × Option PyErr)
  | [], fs, tel => some (fs, tel, none)
  | (theta, phi) :: rest, fs, tel =>
    let out_path := save_dir ++ "/" ++ measFileName theta phi
    if skip_existing ∧ fs.hasFile out_path then
      scanLoop env max_t_s read_interval_s max_trig read_threshold
        fuel save_dir skip_existing rest fs tel
    else
      match move_to env tel theta phi with
      | (tel1, some e) => some (fs, tel1, some e)
      | (tel1, none) =>
        match measure' env tel1 max_t_s read_interval_s max_trig read_threshold fuel with
        | none => none
        | some (tel2, .error e) => some (fs, tel2, some e)
        | some (tel2, .ok (elapsed, triggers)) =>
          let fs1 := fs.writeFile out_path ⟨theta, phi, triggers.length, elapsed⟩
          if triggers = [] then
            scanLoop env max_t_s read_interval_s max_trig read_threshold
              fuel save_dir skip_existing rest fs1 tel2
          else some (fs1, tel2, some .typeError)

/-- `scan`: the position list is typed as pairs of rationals, so the
`isinstance` validation always passes in the embedding; then
`os.mkdir(out_dir)` raises `FileExistsError` when the directory already
exists, and otherwise the directory is created and the position loop
runs.  The measurement keyword arguments are the explicit `measure`
parameters. -/
def scan (env : Env) (fs : FS) (tel : Telescope) (positions : List (ℚ × ℚ))
    (save_dir : String) (skip_existing : Bool) (max_t_s read_interval_s : ℚ)
    (max_trig read_threshold : ℤ) (fuel : ℕ) : Option (FS × Telescope × Option PyErr) :=
  if fs.dirs.contains save_dir then (some (fs, tel, some .fileExistsError))
  else
    scanLoop env max_t_s read_interval_s max_trig read_threshold fuel save_dir skip_existing
      positions ⟨fs.dirs ++ [save_dir], fs.files⟩ tel

/-- In-order concatenation of the first `k` batches of `b`. -/
def concatBatches : (ℕ → List ℤ) → ℕ → List ℤ
  | _, 0 => []
  | b, k + 1 => b 0 ++ concatBatches (fun j => b (j + 1)) k

/-- A device that answers `"0"` to every command. -/
def envZero : Env := ⟨fun _ => "0"⟩

/-- A calibrated telescope at the home position `(90.0, 0.0)`. -/
def sCal : Telescope := ⟨true, some (90, 0), []⟩

lemma pymod_eq_mul_fract (x : ℚ) {y : ℚ} (hy : 0 < y) :
    pymod x y = y * Int.fract (x / y) := by
  have hy' : y ≠ 0 := ne_of_gt hy
  show x - y * (⌊x / y⌋ : ℚ) = y * (x / y - (⌊x / y⌋ : ℚ))
  rw [mul_sub, mul_div_cancel₀ _ hy']

lemma pymod_nonneg (x : ℚ) {y : ℚ} (hy : 0 < y) : 0 ≤ pymod x y := by
  rw [pymod_eq_mul_fract x hy]
  exact mul_nonneg hy.le (Int.fract_nonneg _)

lemma pymod_lt (x : ℚ) {y : ℚ} (hy : 0 < y) : pymod x y < y := by
  rw [pymod_eq_mul_fract x hy]
  calc y * Int.fract (x / y) < y * 1 := (mul_lt_mul_left hy).mpr (Int.fract_lt_one _)
    _ = y := mul_one y

/-- Behaviour of `move_to` on a calibrated telescope with valid inputs:
it returns normally, unconditionally stores the normalized target, and
sends no command at all when both axes are already on target. -/
lemma move_to_calibrated (env : Env) (s : Telescope) (theta phi ct cp : ℚ)
    (hc : s.calibrated = true) (hp : s.current_pos = some (ct, cp))
    (ht : 0 ≤ theta) (hf : 0 ≤ phi) :
    ∃ cmds : List String,
      move_to env s theta phi =
        (⟨true, some (pymod theta 180, pymod phi 360), s.sentCmds ++ cmds⟩, none) ∧
      (pymod phi 360 = cp → pymod theta 180 = ct → cmds = []) := by
  unfold move_to
  rw [hp]
  by_cases h1 : |pymod phi 360 - cp| < tol <;>
    by_cases h2 : |pymod theta 180 - ct| < tol
  · exact ⟨[], by simp [hc, ht, hf, h1, h2], fun _ _ => rfl⟩
  · refine ⟨["m1," ++ toString (pyroundQ (steps_per_rev / 360 * pymod theta 180))],
      by simp [hc, ht, hf, h1, h2, send_cmd], fun _ hth => absurd ?_ h2⟩
    rw [hth]
    simp [tol]
  · refine ⟨["m0," ++ toString (pyroundQ (steps_per_rev / 360 * pymod phi 360))],
      by simp [hc, ht, hf, h1, h2, send_cmd], fun hph _ => absurd ?_ h1⟩
    rw [hph]
    simp [tol]
  · refine ⟨["m0," ++ toString (pyroundQ (steps_per_rev / 360 * pymod phi 360)),
      "m1," ++ toString (pyroundQ (steps_per_rev / 360 * pymod theta 180))],
      by simp [hc, ht, hf, h1, h2, send_cmd], fun hph _ => absurd ?_ h1⟩
    rw [hph]
    simp [tol]

/-- C10: a freshly constructed telescope reports `is_calibrated =
False` and the `position` property returns the `(None, None)` sentinel
(modelled as `none`) rather than a numeric pair. -/
theorem c10_fresh_telescope_uncalibrated_sentinel :
    is_calibrated telInit = false ∧ position telInit = none :=
  ⟨rfl, rfl⟩

/-- C5: `move_to` on an uncalibrated telescope fails with the
precondition error (a bare `Exception` in the source) for every pair of
angles, leaving the telescope state - including the ghost command log,
hence the device - untouched. -/
theorem c5_move_uncalibrated_precondition_no_io (env : Env) (s : Telescope)
    (theta phi : ℚ) (hc : s.calibrated = false) :
    move_to env s theta phi = (s, some PyErr.preconditionError) := by
  unfold move_to
  rw [hc]
  simp

/-- Closed witness for C5 at a concrete uncalibrated telescope. -/
theorem c5_move_uncalibrated_precondition_no_io_w :
    move_to envZero telInit 10 20 = (telInit, some PyErr.preconditionError) :=
  c5_move_uncalibrated_precondition_no_io envZero telInit 10 20 rfl

/-- C3: on a calibrated telescope with non-negative inputs, `move_to`
returns normally and stores exactly `(theta mod 180, phi mod 360)`,
whatever the device (the arbitrary `env`) answered to the move
commands. -/
theorem c3_move_to_stores_normalized (env : Env) (s : Telescope) (theta phi ct cp : ℚ)
    (hc : s.calibrated = true) (hp : s.current_pos = some (ct, cp))
    (ht : 0 ≤ theta) (hf : 0 ≤ phi) :
    (move_to env s theta phi).2 = none ∧
    (move_to env s theta phi).1.current_pos = some (pymod theta 180, pymod phi 360) := by
  obtain ⟨cmds, heq, -⟩ := move_to_calibrated env s theta phi ct cp hc hp ht hf
  rw [heq]
  exact ⟨rfl, rfl⟩

/-- Closed witness for C3: `move_to(200, 400)` stores `(20.0, 40.0)`. -/
theorem c3_move_to_stores_normalized_w :
    (move_to envZero sCal 200 400).2 = none ∧
    (move_to envZero sCal 200 400).1.current_pos = some (20, 40) := by
  have h := c3_move_to_stores_normalized envZero sCal 200 400 90 0 rfl rfl
    (by norm_num) (by norm_num)
  refine ⟨h.1, ?_⟩
  rw [h.2]
  norm_num [pymod]

/-- C6: `move_to` is idempotent: after a first valid move, a second
call (under any device behaviour `env'`) whose arguments have the same
normalized target returns normally and leaves the state - position and
command log alike - exactly as the first call left it, so no device
command is issued. -/
theorem c6_move_to_idempotent (env env' : Env) (s : Telescope)
    (theta phi theta' phi' ct cp : ℚ)
    (hc : s.calibrated = true) (hp : s.current_pos = some (ct, cp))
    (ht : 0 ≤ theta) (hf : 0 ≤ phi) (ht' : 0 ≤ theta') (hf' : 0 ≤ phi')
    (hth : pymod theta' 180 = pymod theta 180) (hph : pymod phi' 360 = pymod phi 360) :
    move_to env' (move_to env s theta phi).1 theta' phi'
      = ((move_to env s theta phi).1, none) := by
  obtain ⟨cmds, heq1, -⟩ := move_to_calibrated env s theta phi ct cp hc hp ht hf
  rw [heq1]
  obtain ⟨cmds2, heq2, hnil⟩ := move_to_calibrated env'
    ⟨true, some (pymod theta 180, pymod phi 360), s.sentCmds ++ cmds⟩
    theta' phi' (pymod theta 180) (pymod phi 360) rfl rfl ht' hf'
  rw [heq2, hnil hph hth, hth, hph, List.append_nil]

/-- Closed witness for C6: moving to `(200, 400)` and then to
`(380, 760)` (same normalized target `(20, 40)`) leaves the state of
the first move untouched. -/
theorem c6_move_to_idempotent_w :
    move_to envZero (move_to envZero sCal 200 400).1 380 760
      = ((move_to envZero sCal 200 400).1, none) :=
  c6_move_to_idempotent envZero envZero sCal 200 400 380 760 90 0 rfl rfl
    (by norm_num) (by norm_num) (by norm_num) (by norm_num)
    (by norm_num [pymod]) (by norm_num [pymod])

/-- The positional invariant: whenever the telescope is calibrated, it
tracks a numeric position with `0 <= theta < 180` and
`0 <= phi < 360`. -/
def PosInv (s : Telescope) : Prop :=
  s.calibrated = true →
    ∃ t p, s.current_pos = some (t, p) ∧ 0 ≤ t ∧ t < 180 ∧ 0 ≤ p ∧ p < 360

lemma calibrate_preserves_PosInv (env : Env) (s : Telescope) (h : PosInv s) :
    PosInv (calibrate env s).1 := by
  unfold calibrate
  by_cases hcal : s.calibrated
  · simpa [hcal] using h
  · simp only [hcal, if_false, send_cmd]
    by_cases h0 : env.resp s.sentCmds.length = "-3"
    · simp only [h0, if_true]
      intro habs
      simp [hcal] at habs
    · simp only [h0, if_false]
      by_cases h1 : env.resp (s.sentCmds ++ ["c0"]).length = "-3"
      · simp only [h1, if_true]
        intro habs
        simp [hcal] at habs
      · simp only [h1, if_false]
        intro _
        exact ⟨90, 0, rfl, by norm_num⟩

lemma move_to_preserves_PosInv (env : Env) (s : Telescope) (theta phi : ℚ)
    (h : PosInv s) : PosInv (move_to env s theta phi).1 := by
  unfold move_to
  by_cases hcal : s.calibrated
  · by_cases hang : 0 ≤ theta ∧ 0 ≤ phi
    · match hpos : s.current_pos with
      | none => simpa [hcal, hang, hpos] using h
      | some (ct, cp) =>
        simp only [hcal, hang, hpos, not_true, if_false, not_false_iff, if_true,
          and_self, not_and, not_le, ite_not]
        split <;> split <;>
          exact fun _ => ⟨pymod theta 180, pymod phi 360, rfl,
            pymod_nonneg theta (by norm_num), pymod_lt theta (by norm_num),
            pymod_nonneg phi (by norm_num), pymod_lt phi (by norm_num)⟩
    · simpa [hcal, hang] using h
  · simpa [hcal] using h

lemma reset_position_preserves_PosInv (env : Env) (s : Telescope) (h : PosInv s) :
    PosInv (reset_position env s).1 := by
  unfold reset_position
  have hm := move_to_preserves_PosInv env s 60 40 h
  match hres : move_to env s 60 40 with
  | (s', some e) =>
    rw [hres] at hm
    exact hm
  | (s', none) =>
    intro habs
    simp at habs

/-- C9: each of `calibrate`, `move_to` and `reset_position` preserves
the invariant that a calibrated telescope tracks a numeric position in
`[0, 180) x [0, 360)`. -/
theorem c9_operations_preserve_invariant (env : Env) (s : Telescope) (h : PosInv s) :
    PosInv (calibrate env s).1 ∧
    (∀ theta phi, PosInv (move_to env s theta phi).1) ∧
    PosInv (reset_position env s).1 :=
  ⟨calibrate_preserves_PosInv env s h,
   fun theta phi => move_to_preserves_PosInv env s theta phi h,
   reset_position_preserves_PosInv env s h⟩

/-- Closed witness for C9 at the freshly constructed telescope. -/
theorem c9_operations_preserve_invariant_w :
    PosInv (calibrate envZero telInit).1 ∧
    PosInv (move_to envZero telInit 5 7).1 ∧
    PosInv (reset_position envZero telInit).1 := by
  have h := c9_operations_preserve_invariant envZero telInit
    (fun habs => absurd habs (by decide))
  exact ⟨h.1, h.2.1 5 7, h.2.2⟩

/-- A device answering success for axis 0 and an unexpected `"7"` for
axis 1. -/
def envCalOdd : Env := ⟨fun i => if i = 0 then "0" else "7"⟩

/-- C4 counterexample: with axis 0 succeeding and axis 1 answering the
unexpected response `"7"` (not the success response `"0"`), `calibrate`
still transitions to `Calibrated` and returns without error, because
the source constructs `ValueError(msg)` without raising it.  This
refutes "transitions ... exactly when both axes respond with
success". -/
theorem c4_calibrate_counterexample :
    (calibrate envCalOdd telInit).1.calibrated = true ∧
    envCalOdd.resp 1 ≠ "0" ∧
    (calibrate envCalOdd telInit).2 = none := by
  refine ⟨rfl, ?_, rfl⟩
  decide

/-- C4 amended: on an uncalibrated telescope, `calibrate` sends `c0`
then `c1` and transitions to `Calibrated` with position `(90.0, 0.0)`
whenever neither axis answers `"-3"` (success is sufficient but not
necessary: unexpected responses are logged and swallowed); if either
axis answers `"-3"`, a `CalibrationError` (raised as `ValueError`) is
raised, the state remains `Uncalibrated` and the position is
unchanged, with axis 1 never attempted when axis 0 fails. -/
theorem c4_calibrate_amended (env : Env) (s : Telescope) (hc : s.calibrated = false) :
    ((env.resp s.sentCmds.length ≠ "-3" ∧ env.resp (s.sentCmds.length + 1) ≠ "-3") →
      calibrate env s = (⟨true, some (90, 0), s.sentCmds ++ ["c0", "c1"]⟩, none)) ∧
    (env.resp s.sentCmds.length = "-3" →
      calibrate env s = (⟨false, s.current_pos, s.sentCmds ++ ["c0"]⟩,
        some PyErr.valueError)) ∧
    (env.resp s.sentCmds.length ≠ "-3" → env.resp (s.sentCmds.length + 1) = "-3" →
      calibrate env s = (⟨false, s.current_pos, s.sentCmds ++ ["c0", "c1"]⟩,
        some PyErr.valueError)) := by
  refine ⟨fun ⟨h0, h1⟩ => ?_, fun h0 => ?_, fun h0 h1 => ?_⟩ <;>
    simp [calibrate, send_cmd, hc, h0, *]

/-- A device whose axis-0 calibration fails with `"-3"`. -/
def envCalFail0 : Env := ⟨fun _ => "-3"⟩

/-- A device whose axis-0 calibration succeeds and whose axis-1
calibration fails with `"-3"`. -/
def envCalFail1 : Env := ⟨fun i => if i = 0 then "0" else "-3"⟩

/-- Closed witness for C4 amended, exercising all three cases. -/
theorem c4_calibrate_amended_w :
    calibrate envCalOdd telInit = (⟨true, some (90, 0), ["c0", "c1"]⟩, none) ∧
    calibrate envCalFail0 telInit = (⟨false, none, ["c0"]⟩, some PyErr.valueError) ∧
    calibrate envCalFail1 telInit
      = (⟨false, none, ["c0", "c1"]⟩, some PyErr.valueError) :=
  ⟨(c4_calibrate_amended envCalOdd telInit rfl).1 ⟨by decide, by decide⟩,
   (c4_calibrate_amended envCalFail0 telInit rfl).2.1 (by decide),
   (c4_calibrate_amended envCalFail1 telInit rfl).2.2 (by decide) (by decide)⟩

/-- C7: for every list of six integers, the `arduino_date` setter
passes its own validation and then raises `TypeError` from
`",".join(val)` (string join over `int` elements) before any command
reaches the device - it neither sends `s{Y,M,D,H,Min,S}` nor reports
pass/fail. -/
theorem c7_set_clock_raises_typeerror (env : Env) (s : Telescope) (val : List ℤ)
    (h : val.length = 6) :
    arduino_date_set env s val = (s, some PyErr.typeError) := by
  unfold arduino_date_set
  rw [h]
  simp

/-- Closed witness for C7 at the input used by the repository's own
`test_arduino_date`. -/
theorem c7_set_clock_raises_typeerror_w :
    arduino_date_set envZero telInit [2026, 1, 24, 20, 19, 0]
      = (telInit, some PyErr.typeError) :=
  c7_set_clock_raises_typeerror envZero telInit _ rfl

/-- C1: re-running `scan` over a `save_dir` that already exists (as a
second run over the same directory does) raises `FileExistsError` at
`os.mkdir`, before any skip check, device interaction or file write:
the filesystem and the telescope are returned untouched and no
position is measured.  This contradicts the claimed resume behaviour
(and the repository's own `test_raster_scan`, which re-runs over the
same directory and expects success). -/
theorem c1_scan_existing_dir_raises (env : Env) (fs : FS) (tel : Telescope)
    (positions : List (ℚ × ℚ)) (save_dir : String) (skip_existing : Bool)
    (max_t_s read_interval_s : ℚ) (max_trig read_threshold : ℤ) (fuel : ℕ)
    (h : fs.dirs.contains save_dir = true) :
    scan env fs tel positions save_dir skip_existing max_t_s read_interval_s
      max_trig read_threshold fuel = some (fs, tel, some PyErr.fileExistsError) := by
  unfold scan
  rw [if_pos h]

/-- A filesystem in which the scan directory already exists. -/
def fsRun : FS := ⟨["run"], []⟩

/-- Closed witness for C1 at a concrete pre-existing directory. -/
theorem c1_scan_existing_dir_raises_w :
    scan envZero fsRun telInit [(0, 0)] "run" true 10 1 1000 100 5
      = some (fsRun, telInit, some PyErr.fileExistsError) :=
  c1_scan_existing_dir_raises envZero fsRun telInit [(0, 0)] "run" true 10 1 1000 100 5
    (by decide)

/-- A device that never responds (every command times out and
`send_cmd` returns the empty string). -/
def envEmpty : Env := ⟨fun _ => ""⟩

/-- C2 counterexample: when the first buffer-depth poll times out
(empty response), `int("")` raises `ValueError` and `measure` aborts on
its first iteration - far from treating the tick as zero new data, and
although neither the wall-clock (10 s) nor the trigger-count (1000)
ceiling was reached. -/
theorem c2_measure_timeout_counterexample :
    measure' envEmpty telInit 10 1 1000 100 3
      = some (⟨false, none, ["x", "n"]⟩, .error PyErr.valueError) := by
  rfl

/-- C2 amended: a timed-out drain (`read_buffer`, second conjunct) is
indeed treated as zero new data and does not raise, but a timed-out
buffer-depth poll (`read_ntrig`, first conjunct) surfaces an empty
string whose integer parse fails, so `measure` raises `ValueError` and
terminates immediately instead of continuing to a ceiling. -/
theorem c2_measure_timeout_amended :
    (∀ (env : Env) (tel : Telescope) (max_t_s read_interval_s : ℚ)
      (max_trig read_threshold : ℤ) (fuel : ℕ),
      0 < max_t_s →
      env.resp (tel.sentCmds.length + 1) = "" →
      measure' env tel max_t_s read_interval_s max_trig read_threshold (fuel + 1)
        = some (⟨tel.calibrated, tel.current_pos, tel.sentCmds ++ ["x", "n"]⟩,
            .error PyErr.valueError)) ∧
    (∀ (env : Env) (tel : Telescope),
      env.resp tel.sentCmds.length = "" →
      read_buffer env tel
        = (⟨tel.calibrated, tel.current_pos, tel.sentCmds ++ ["h"]⟩, .ok [])) := by
  constructor
  · intro env tel max_t_s read_interval_s max_trig read_threshold fuel hpos hresp
    have hlen : (tel.sentCmds ++ ["x"]).length = tel.sentCmds.length + 1 := by
      simp
    have hpi : parseIntPy "" = none := rfl
    simp only [measure', clear_buffer, send_cmd, measureLoop, if_pos hpos,
      read_ntrig, hlen, hresp]
    simp [hpi, List.append_assoc]
  · intro env tel hresp
    simp only [read_buffer, send_cmd, hresp]
    rfl

/-- Closed witness for C2 amended on the never-responding device. -/
theorem c2_measure_timeout_amended_w :
    measure' envEmpty telInit 10 1 1000 100 3
      = some (⟨false, none, ["x", "n"]⟩, .error PyErr.valueError) ∧
    read_buffer envEmpty telInit = (⟨false, none, ["h"]⟩, .ok []) :=
  ⟨c2_measure_timeout_amended.1 envEmpty telInit 10 1 1000 100 2 (by norm_num) rfl,
   c2_measure_timeout_amended.2 envEmpty telInit rfl⟩

lemma read_ntrig_eq (env : Env) (tel : Telescope) (n : ℤ)
    (h : parseIntPy (env.resp tel.sentCmds.length) = some n) :
    read_ntrig env tel
      = (⟨tel.calibrated, tel.current_pos, tel.sentCmds ++ ["n"]⟩, .ok n) := by
  simp [read_ntrig, send_cmd, h]

lemma read_buffer_eq (env : Env) (tel : Telescope) (l : List ℤ)
    (h : parseBuffer (env.resp tel.sentCmds.length) = some l) :
    read_buffer env tel
      = (⟨tel.calibrated, tel.current_pos, tel.sentCmds ++ ["h"]⟩, .ok l) := by
  simp [read_buffer, send_cmd, h]

lemma measureLoop_succ (env : Env) (max_t_s read_interval_s : ℚ)
    (max_trig read_threshold : ℤ) (fuel : ℕ) (clock : ℚ) (n_triggers : ℕ)
    (triggers : List ℤ) (tel : Telescope) :
    measureLoop env max_t_s read_interval_s max_trig read_threshold
        (fuel + 1) clock n_triggers triggers tel
      = if clock < max_t_s then
          let clock1 := clock + read_interval_s
          match read_ntrig env tel with
          | (tel1, .error e) => some (tel1, .error e)
          | (tel1, .ok n_in_buffer) =>
            if read_threshold ≤ n_in_buffer then
              match read_buffer env tel1 with
              | (tel2, .error e) => some (tel2, .error e)
              | (tel2, .ok new_triggers) =>
                let n_triggers2 := n_triggers + new_triggers.length
                let triggers2 := triggers ++ new_triggers
                if max_trig ≤ (n_triggers2 : ℤ) then
                  some (tel2, .ok (clock1, n_triggers2, triggers2))
                else
                  measureLoop env max_t_s read_interval_s max_trig read_threshold
                    fuel clock1 n_triggers2 triggers2 tel2
            else
              if max_trig ≤ (n_triggers : ℤ) + n_in_buffer then
                some (tel1, .ok (clock1, n_triggers, triggers))
              else
                measureLoop env max_t_s read_interval_s max_trig read_threshold
                  fuel clock1 n_triggers triggers tel1
        else some (tel, .ok (clock, n_triggers, triggers)) := rfl

/-- While the device keeps reporting a depth at (or above) a positive
threshold and each drain returns a batch of exactly the reported size,
every loop iteration drains at least one trigger, so the loop breaks on
the trigger-count ceiling within `max_trig` iterations - provided the
time ceiling leaves room for them - and returns the in-order
concatenation of the drained batches. -/
lemma measureLoop_always_drains (env : Env) (max_t_s read_interval_s : ℚ)
    (max_trig read_threshold : ℤ)
    (hthr : 1 ≤ read_threshold) (hint : 0 ≤ read_interval_s) :
    ∀ (fuel : ℕ) (d : ℕ → ℤ) (b : ℕ → List ℤ) (clock : ℚ) (n_triggers : ℕ)
      (triggers : List ℤ) (tel : Telescope),
      (∀ j, parseIntPy (env.resp (tel.sentCmds.length + 2 * j)) = some (d j)) →
      (∀ j, parseBuffer (env.resp (tel.sentCmds.length + 2 * j + 1)) = some (b j)) →
      (∀ j, read_threshold ≤ d j) →
      (∀ j, ((b j).length : ℤ) = d j) →
      ((n_triggers : ℤ) < max_trig) →
      (max_trig - (n_triggers : ℤ) ≤ (fuel : ℤ)) →
      (clock + ((max_trig - (n_triggers : ℤ) - 1 : ℤ) : ℚ) * read_interval_s < max_t_s) →
      ∃ (k : ℕ) (clock' : ℚ) (tel' : Telescope),
        measureLoop env max_t_s read_interval_s max_trig read_threshold
            fuel clock n_triggers triggers tel
          = some (tel', .ok (clock', n_triggers + (concatBatches b k).length,
              triggers ++ concatBatches b k)) ∧
        max_trig ≤ ((n_triggers : ℤ) + ((concatBatches b k).length : ℤ)) ∧
        tel'.sentCmds.length = tel.sentCmds.length + 2 * k := by
  intro fuel
  induction fuel with
  | zero =>
    intro d b clock nT trigs tel _ _ _ _ hlt hfuel _
    exfalso
    omega
  | succ n ih =>
    intro d b clock nT trigs tel hpoll hbuf hthrj hlenj hlt hfuel htime
    have hr1 : (0 : ℤ) ≤ max_trig - (nT : ℤ) - 1 := by omega
    have hclk : clock < max_t_s := by
      have h0 : (0 : ℚ) ≤ ((max_trig - (nT : ℤ) - 1 : ℤ) : ℚ) * read_interval_s :=
        mul_nonneg (by exact_mod_cast hr1) hint
      linarith
    have hrn := read_ntrig_eq env tel (d 0) (by simpa using hpoll 0)
    have hlen1T : ((⟨tel.calibrated, tel.current_pos, tel.sentCmds ++ ["n"]⟩ :
        Telescope)).sentCmds.length = tel.sentCmds.length + 1 := by simp
    have hrb : read_buffer env ⟨tel.calibrated, tel.current_pos, tel.sentCmds ++ ["n"]⟩
        = (⟨tel.calibrated, tel.current_pos, tel.sentCmds ++ ["n"] ++ ["h"]⟩, .ok (b 0)) := by
      apply read_buffer_eq
      rw [hlen1T]
      simpa using hbuf 0
    have hd0 : read_threshold ≤ d 0 := hthrj 0
    have hlen1 : 1 ≤ (b 0).length := by
      have h1 := hlenj 0
      have h2 := hthrj 0
      omega
    rw [measureLoop_succ, if_pos hclk]
    simp only [hrn, hrb, if_pos hd0]
    by_cases hbreak : max_trig ≤ ((nT + (b 0).length : ℕ) : ℤ)
    · rw [if_pos hbreak]
      refine ⟨1, clock + read_interval_s,
        ⟨tel.calibrated, tel.current_pos, tel.sentCmds ++ ["n"] ++ ["h"]⟩, ?_, ?_, ?_⟩
      · have hcb : concatBatches b 1 = b 0 := by simp [concatBatches]
        rw [hcb]
      · have hcb : concatBatches b 1 = b 0 := by simp [concatBatches]
        rw [hcb]
        exact_mod_cast hbreak
      · simp [Nat.add_assoc]
    · rw [if_neg hbreak]
      have hlen2T : ((⟨tel.calibrated, tel.current_pos, tel.sentCmds ++ ["n"] ++ ["h"]⟩ :
          Telescope)).sentCmds.length = tel.sentCmds.length + 2 := by simp
      obtain ⟨k', clock', tel', heq, hge, hlencmds⟩ :=
        ih (fun j => d (j + 1)) (fun j => b (j + 1)) (clock + read_interval_s)
          (nT + (b 0).length) (trigs ++ b 0)
          ⟨tel.calibrated, tel.current_pos, tel.sentCmds ++ ["n"] ++ ["h"]⟩
          (fun j => by
            rw [hlen2T, show tel.sentCmds.length + 2 + 2 * j
              = tel.sentCmds.length + 2 * (j + 1) by ring]
            exact hpoll (j + 1))
          (fun j => by
            rw [hlen2T, show tel.sentCmds.length + 2 + 2 * j + 1
              = tel.sentCmds.length + 2 * (j + 1) + 1 by ring]
            exact hbuf (j + 1))
          (fun j => hthrj (j + 1)) (fun j => hlenj (j + 1))
          (by exact_mod_cast not_le.mp hbreak)
          (by push_cast; push_cast at hfuel; omega)
          (by
            have hz : (max_trig - ((nT : ℤ) + (b 0).length) - 1) + 1
                ≤ max_trig - (nT : ℤ) - 1 := by omega
            have hBA : ((max_trig - ((nT : ℤ) + (b 0).length) - 1 : ℤ) : ℚ) + 1
                ≤ ((max_trig - (nT : ℤ) - 1 : ℤ) : ℚ) := by exact_mod_cast hz
            have hmul : (((max_trig - ((nT : ℤ) + (b 0).length) - 1 : ℤ) : ℚ) + 1)
                * read_interval_s
                ≤ ((max_trig - (nT : ℤ) - 1 : ℤ) : ℚ) * read_interval_s :=
              mul_le_mul_of_nonneg_right hBA hint
            have hexp : ((max_trig - ((nT + (b 0).length : ℕ) : ℤ) - 1 : ℤ) : ℚ)
                = ((max_trig - ((nT : ℤ) + (b 0).length) - 1 : ℤ) : ℚ) := by
              push_cast
              ring
            rw [hexp]
            nlinarith [htime])
      refine ⟨k' + 1, clock', tel', ?_, ?_, ?_⟩
      · rw [heq]
        have hcb : concatBatches b (k' + 1)
            = b 0 ++ concatBatches (fun j => b (j + 1)) k' := rfl
        rw [hcb]
        simp [List.append_assoc, Nat.add_assoc]
      · have hcb : concatBatches b (k' + 1)
            = b 0 ++ concatBatches (fun j => b (j + 1)) k' := rfl
        rw [hcb]
        simp only [List.length_append]
        push_cast
        push_cast at hge
        omega
      · rw [hlencmds, hlen2T]
        ring

/-- C8 amended: with a positive `read_threshold`, `max_trig = N >= 1`,
enough fuel, and a time ceiling leaving room for `N` polls
(`(N - 1) * read_interval_s < max_t_s`), a device that on each poll
reports a depth at or above the threshold and on each drain returns
exactly that many timestamps makes `measure` terminate with at least
`N` triggers, the result being the in-order concatenation of the
drained batches followed by the final unconditional drain. -/
theorem c8_measure_reaches_max_trig_amended (env : Env) (tel : Telescope)
    (max_t_s read_interval_s : ℚ) (max_trig read_threshold : ℤ) (fuel : ℕ)
    (d : ℕ → ℤ) (b bf : ℕ → List ℤ)
    (hpoll : ∀ j, parseIntPy (env.resp (tel.sentCmds.length + 1 + 2 * j)) = some (d j))
    (hbuf : ∀ j, parseBuffer (env.resp (tel.sentCmds.length + 1 + 2 * j + 1)) = some (b j))
    (hfin : ∀ j, parseBuffer (env.resp (tel.sentCmds.length + 1 + 2 * j)) = some (bf j))
    (hthrj : ∀ j, read_threshold ≤ d j)
    (hlenj : ∀ j, ((b j).length : ℤ) = d j)
    (hthr : 1 ≤ read_threshold) (hint : 0 ≤ read_interval_s)
    (hN : 1 ≤ max_trig) (hfuel : max_trig ≤ (fuel : ℤ))
    (htime : ((max_trig - 1 : ℤ) : ℚ) * read_interval_s < max_t_s) :
    ∃ (k : ℕ) (clock' : ℚ) (tel' : Telescope),
      measure' env tel max_t_s read_interval_s max_trig read_threshold fuel
        = some (tel', .ok (clock', concatBatches b k ++ bf k)) ∧
      max_trig ≤ ((concatBatches b k).length : ℤ) := by
  have hl0 : ((⟨tel.calibrated, tel.current_pos, tel.sentCmds ++ ["x"]⟩ :
      Telescope)).sentCmds.length = tel.sentCmds.length + 1 := by simp
  obtain ⟨k, clock', tel', heq, hge, hlen'⟩ :=
    measureLoop_always_drains env max_t_s read_interval_s max_trig read_threshold
      hthr hint fuel d b 0 0 []
      ⟨tel.calibrated, tel.current_pos, tel.sentCmds ++ ["x"]⟩
      (fun j => by rw [hl0]; exact hpoll j)
      (fun j => by rw [hl0]; exact hbuf j)
      hthrj hlenj (by omega) (by omega)
      (by
        push_cast
        push_cast at htime
        linarith)
  have hfk : read_buffer env tel'
      = (⟨tel'.calibrated, tel'.current_pos, tel'.sentCmds ++ ["h"]⟩, .ok (bf k)) := by
    apply read_buffer_eq
    rw [hlen', hl0]
    exact hfin k
  refine ⟨k, clock', ⟨tel'.calibrated, tel'.current_pos, tel'.sentCmds ++ ["h"]⟩, ?_, ?_⟩
  · simp only [measure', clear_buffer, send_cmd, heq, hfk]
    simp
  · simpa using hge

/-- C8 counterexample: with `read_threshold = 0` (not constrained by
the claim) a device that on each poll reports depth `0` (which is `>=
read_threshold`) and on each drain returns that many (zero) timestamps
drives `measure` to the wall-clock ceiling with an empty trigger
sequence, so the returned sequence is shorter than `max_trig = 1`. -/
theorem c8_measure_counterexample :
    measure' envZero telInit 20 10 1 0 5
      = some (⟨false, none, ["x", "n", "h", "n", "h", "h"]⟩, .ok (20, [])) ∧
    ¬ (1 : ℤ) ≤ ((([] : List ℤ)).length : ℤ) := by
  have hp0 : parseIntPy "0" = some 0 := rfl
  have hb0 : parseBuffer "0" = some [] := rfl
  refine ⟨?_, by decide⟩
  norm_num [measure', measureLoop, clear_buffer, read_ntrig, read_buffer, send_cmd,
    envZero, telInit, hp0, hb0]

/-- A device whose polls (odd command indices after the initial `x`)
report one trigger and whose drains return exactly one timestamp. -/
def env8w : Env :=
  ⟨fun i => if i = 0 then "0" else if i % 2 = 1 then "1" else "1\n7"⟩

/-- Closed witness for C8 amended on a device always reporting one
trigger per poll, with `max_trig = 2`. -/
theorem c8_measure_reaches_max_trig_amended_w :
    ∃ (k : ℕ) (clock' : ℚ) (tel' : Telescope),
      measure' env8w telInit 10 1 2 1 2
        = some (tel', .ok (clock', concatBatches (fun _ => ([7] : List ℤ)) k ++ [])) ∧
      (2 : ℤ) ≤ ((concatBatches (fun _ => ([7] : List ℤ)) k).length : ℤ) := by
  refine c8_measure_reaches_max_trig_amended env8w telInit 10 1 2 1 2
    (fun _ => 1) (fun _ => [7]) (fun _ => [])
    (fun j => ?_) (fun j => ?_) (fun j => ?_)
    (fun _ => le_refl 1) (fun _ => rfl)
    (le_refl 1) (by norm_num) (by norm_num) (by norm_num) (by norm_num)
  · have h2 : ¬ (telInit.sentCmds.length + 1 + 2 * j = 0) := by omega
    have h1 : (telInit.sentCmds.length + 1 + 2 * j) % 2 = 1 := by
      simp only [telInit, List.length_nil]
      omega
    simp [env8w, h1, h2]
    rfl
  · have h2 : ¬ (telInit.sentCmds.length + 1 + 2 * j + 1 = 0) := by omega
    have h1 : ¬ ((telInit.sentCmds.length + 1 + 2 * j + 1) % 2 = 1) := by
      simp only [telInit, List.length_nil]
      omega
    simp [env8w, h1, h2]
    rfl
  · have h2 : ¬ (telInit.sentCmds.length + 1 + 2 * j = 0) := by omega
    have h1 : (telInit.sentCmds.length + 1 + 2 * j) % 2 = 1 := by
      simp only [telInit, List.length_nil]
      omega
    simp [env8w, h1, h2]
    rfl
